import Mathlib

/-!
# Lua RTOS network manager

A shallow embedding of `components/lua_rtos/drivers/net.c`: the event translator
`event_handler`, and the facade operations `net_init`, `net_check_connectivity`
and `net_lookup`.

The embedding is of the build in which both `CONFIG_WIFI_ENABLED` and
`CONFIG_SPI_ETHERNET` are defined, so that every `case` of the `switch` in
`event_handler` is present.

Global variables of the C file (`retries`, `netEvent`) and the status flags it
touches are the fields of `State`. Calls into the collaborators (Wi-Fi driver,
FreeRTOS event groups, IP stack, resolver, console) are recorded, in program
order, in a list of `Call`s returned next to the new state.
-/

namespace Net

/-! ## Data model -/

/-- Status flags of `sys/status.h` that `net.c` reads or writes. -/
inductive StatusFlag
  | STATUS_TCPIP_INITED
  | STATUS_WIFI_CONNECTED
  | STATUS_SPI_ETH_CONNECTED
  deriving DecidableEq, Repr

/-- Modelled from the spec: the event-bit constants `evWIFI_SCAN_END`, `evWIFI_CONNECTED`,
`evWIFI_CANT_CONNECT` (`drivers/wifi.h`) and `evSPI_ETH_CONNECTED` are not in the sources at
hand; the notification signal group is "a set of independently settable/clearable bits", so
each constant names a bit of its own. -/
inductive EventBit
  | evWIFI_SCAN_END
  | evWIFI_CONNECTED
  | evWIFI_CANT_CONNECT
  | evSPI_ETH_CONNECTED
  deriving DecidableEq, Repr

/-- The bits of one FreeRTOS event group (`EventBits_t`), one boolean per `EventBit`. -/
structure EventBits where
  scan_end : Bool
  connected : Bool
  cant_connect : Bool
  spi_eth_connected : Bool
  deriving DecidableEq, Repr

/-- The bits of a group as `xEventGroupCreate` returns it: all clear. -/
def EventBits.empty : EventBits := ⟨false, false, false, false⟩

/-- Reading one bit of a group. -/
def EventBits.get (g : EventBits) : EventBit → Bool
  | .evWIFI_SCAN_END => g.scan_end
  | .evWIFI_CONNECTED => g.connected
  | .evWIFI_CANT_CONNECT => g.cant_connect
  | .evSPI_ETH_CONNECTED => g.spi_eth_connected

/-- Or-ing one bit into a group (`uxEventBits |= bit`). -/
def EventBits.set (g : EventBits) : EventBit → EventBits
  | .evWIFI_SCAN_END => { g with scan_end := true }
  | .evWIFI_CONNECTED => { g with connected := true }
  | .evWIFI_CANT_CONNECT => { g with cant_connect := true }
  | .evSPI_ETH_CONNECTED => { g with spi_eth_connected := true }

/-- Event kinds (`system_event_id_t`): the ones named in the `switch` of `event_handler`,
and `other id` for every kind that reaches `default`. -/
inductive system_event_id
  | SYSTEM_EVENT_STA_START
  | SYSTEM_EVENT_STA_STOP
  | SYSTEM_EVENT_STA_DISCONNECTED
  | SYSTEM_EVENT_STA_GOT_IP
  | SYSTEM_EVENT_AP_STA_GOT_IP6
  | SYSTEM_EVENT_AP_START
  | SYSTEM_EVENT_AP_STOP
  | SYSTEM_EVENT_SCAN_DONE
  | SYSTEM_EVENT_STA_CONNECTED
  | SYSTEM_EVENT_SPI_ETH_CONNECTED
  | SYSTEM_EVENT_SPI_ETH_DISCONNECTED
  | SYSTEM_EVENT_SPI_ETH_GOT_IP
  | other (id : Nat)
  deriving DecidableEq, Repr

/-- The callbacks this file hands to `esp_event_loop_init`. -/
inductive Callback
  | event_handler
  deriving DecidableEq, Repr

/-- Driver errors registered by `DRIVER_REGISTER_ERROR`. -/
inductive net_error
  | NET_ERR_NOT_AVAILABLE
  | NET_ERR_INVALID_IP
  deriving DecidableEq, Repr

/-- Address family of IPv4 (lwIP `AF_INET`). -/
def AF_INET : Nat := 2

/-- Address family of IPv6 (lwIP `AF_INET6`). -/
def AF_INET6 : Nat := 10

/-- Socket type of the lookup hint (lwIP `SOCK_STREAM`). -/
def SOCK_STREAM : Nat := 1

/-- Protocol of the lookup hint (lwIP `IPPROTO_TCP`). -/
def IPPROTO_TCP : Nat := 6

/-- Return code `ESP_OK`. -/
def ESP_OK : Int := 0

/-- Byte swap of a 16-bit value (`htons` on the little-endian target). -/
def htons (x : Nat) : Nat := (x % 256) * 256 + (x / 256) % 256

/-- An IPv4 socket address (`struct sockaddr_in`). -/
structure sockaddr_in where
  sin_len : Nat
  sin_family : Nat
  sin_port : Nat
  sin_addr : Nat
  sin_zero : Nat
  deriving DecidableEq, Repr

/-- One node of a resolver result list (`struct addrinfo`); the list itself is a `List`,
a pointer to a node being the sub-list that starts there and `NULL` the empty list. -/
structure addrinfo where
  ai_family : Nat
  ai_addr : sockaddr_in
  deriving DecidableEq, Repr

/-- The scalar fields of the `hints` argument of `getaddrinfo`. -/
structure addrinfo_hints where
  ai_flags : Nat
  ai_family : Nat
  ai_socktype : Nat
  ai_protocol : Nat
  deriving DecidableEq, Repr

/-- Calls into collaborators, as recorded in the trace. -/
inductive Call
  | esp_wifi_connect
  | xEventGroupSetBits (bit : EventBit)
  | xEventGroupCreate
  | tcpip_adapter_init
  | esp_event_loop_init (cb : Callback)
  | getaddrinfo (name : String) (hints : addrinfo_hints)
  | freeaddrinfo (res : List addrinfo)
  | printf (rc : Int)
  deriving DecidableEq, Repr

/-- The state `net.c` works on: the three status flags it uses, its static `retries`
(a `uint8_t`), the global handle `netEvent` (`none` is the `NULL` handle, `some g` a group
whose bits are `g`) and the sink registered with the system event loop. -/
structure State where
  tcpip_inited : Bool
  wifi_connected : Bool
  spi_eth_connected : Bool
  retries : Nat
  netEvent : Option EventBits
  event_loop_cb : Option Callback
  deriving DecidableEq, Repr

/-- A run in progress: the current state and the calls made so far. -/
structure Run where
  state : State
  calls : List Call
  deriving DecidableEq, Repr

/-- What a function leaves behind: the final state, the calls it made, in order, and its
return value. -/
structure Outcome (α : Type) where
  state : State
  calls : List Call
  ret : α
  deriving DecidableEq, Repr

/-! ## Collaborators -/

/-- Reading a flag: `status_get(flag)`. -/
def status_get (f : StatusFlag) (s : State) : Bool :=
  match f with
  | .STATUS_TCPIP_INITED => s.tcpip_inited
  | .STATUS_WIFI_CONNECTED => s.wifi_connected
  | .STATUS_SPI_ETH_CONNECTED => s.spi_eth_connected

/-- Writing a flag to a given value. -/
def status_write (f : StatusFlag) (b : Bool) (s : State) : State :=
  match f with
  | .STATUS_TCPIP_INITED => { s with tcpip_inited := b }
  | .STATUS_WIFI_CONNECTED => { s with wifi_connected := b }
  | .STATUS_SPI_ETH_CONNECTED => { s with spi_eth_connected := b }

/-- Setting a flag: `status_set(flag)`. -/
def status_set (f : StatusFlag) (r : Run) : Run :=
  { r with state := status_write f true r.state }

/-- Clearing a flag: `status_clear(flag)`. -/
def status_clear (f : StatusFlag) (r : Run) : Run :=
  { r with state := status_write f false r.state }

/-- A connect request to the Wi-Fi driver: `esp_wifi_connect()`; its result is ignored. -/
def esp_wifi_connect (r : Run) : Run :=
  { r with calls := r.calls ++ [Call.esp_wifi_connect] }

/-- Setting a bit of the group behind `netEvent`: `xEventGroupSetBits(netEvent, bit)`.
The call is recorded; the bit is or-ed into the group when the handle is not `NULL`. -/
def xEventGroupSetBits (bit : EventBit) (r : Run) : Run :=
  { state := { r.state with netEvent := r.state.netEvent.map (fun g => g.set bit) },
    calls := r.calls ++ [Call.xEventGroupSetBits bit] }

/-- Creating the group: `netEvent = xEventGroupCreate()`. -/
def xEventGroupCreate (r : Run) : Run :=
  { state := { r.state with netEvent := some EventBits.empty },
    calls := r.calls ++ [Call.xEventGroupCreate] }

/-- Starting the IP-stack adapter: `tcpip_adapter_init()`. -/
def tcpip_adapter_init (r : Run) : Run :=
  { r with calls := r.calls ++ [Call.tcpip_adapter_init] }

/-- Registering the event sink: `esp_event_loop_init(cb, NULL)`. -/
def esp_event_loop_init (cb : Callback) (r : Run) : Run :=
  { state := { r.state with event_loop_cb := some cb },
    calls := r.calls ++ [Call.esp_event_loop_init cb] }

/-- Assignment to the static `retries`. -/
def retries_assign (v : Nat) (r : Run) : Run :=
  { r with state := { r.state with retries := v } }

/-- The statement `retries++` on a `uint8_t`. -/
def retries_incr (r : Run) : Run :=
  retries_assign ((r.state.retries + 1) % 256) r

/-- Modelled from the spec: the macro `NETWORK_AVAILABLE()` is not in the sources at hand;
connectivity is available "iff at least one transport's connected flag is currently set",
the tracked connected flags being `WIFI_CONNECTED` and `SPI_ETH_CONNECTED`. -/
def NETWORK_AVAILABLE (s : State) : Bool :=
  status_get .STATUS_WIFI_CONNECTED s || status_get .STATUS_SPI_ETH_CONNECTED s

/-! ## The functions of net.c -/

/-- The event translator `event_handler`, for an event of kind `event_id`; the constant
`WIFI_CONNECT_RETRIES` of `drivers/wifi.h` is a parameter. -/
def event_handler (WIFI_CONNECT_RETRIES : Nat) (s : State) (event_id : system_event_id) :
    Outcome Int :=
  let r0 : Run := ⟨s, []⟩
  let r : Run :=
    match event_id with
    | .SYSTEM_EVENT_STA_START => esp_wifi_connect r0
    | .SYSTEM_EVENT_STA_STOP => r0
    | .SYSTEM_EVENT_STA_DISCONNECTED =>
      if !status_get .STATUS_WIFI_CONNECTED r0.state then
        if r0.state.retries > WIFI_CONNECT_RETRIES then
          r0 |> status_clear .STATUS_WIFI_CONNECTED
             |> xEventGroupSetBits .evWIFI_CANT_CONNECT
             |> retries_assign 0
        else
          r0 |> retries_incr
             |> status_clear .STATUS_WIFI_CONNECTED
             |> esp_wifi_connect
             |> status_clear .STATUS_WIFI_CONNECTED
             |> esp_wifi_connect
      else
        r0 |> status_clear .STATUS_WIFI_CONNECTED
           |> esp_wifi_connect
    | .SYSTEM_EVENT_STA_GOT_IP => xEventGroupSetBits .evWIFI_CONNECTED r0
    | .SYSTEM_EVENT_AP_STA_GOT_IP6 => xEventGroupSetBits .evWIFI_CONNECTED r0
    | .SYSTEM_EVENT_AP_START => status_set .STATUS_WIFI_CONNECTED r0
    | .SYSTEM_EVENT_AP_STOP => status_clear .STATUS_WIFI_CONNECTED r0
    | .SYSTEM_EVENT_SCAN_DONE => xEventGroupSetBits .evWIFI_SCAN_END r0
    | .SYSTEM_EVENT_STA_CONNECTED => status_set .STATUS_WIFI_CONNECTED r0
    | .SYSTEM_EVENT_SPI_ETH_CONNECTED => status_set .STATUS_SPI_ETH_CONNECTED r0
    | .SYSTEM_EVENT_SPI_ETH_DISCONNECTED => status_clear .STATUS_SPI_ETH_CONNECTED r0
    | .SYSTEM_EVENT_SPI_ETH_GOT_IP => xEventGroupSetBits .evSPI_ETH_CONNECTED r0
    | .other _ => r0
  ⟨r.state, r.calls, ESP_OK⟩

/-- The operation `net_init`; `none` is the `NULL` (no error) return. -/
def net_init (s : State) : Outcome (Option net_error) :=
  let r0 : Run := ⟨s, []⟩
  let r : Run :=
    if !status_get .STATUS_TCPIP_INITED r0.state then
      r0 |> status_set .STATUS_TCPIP_INITED
         |> retries_assign 0
         |> xEventGroupCreate
         |> tcpip_adapter_init
         |> esp_event_loop_init .event_handler
    else
      r0
  ⟨r.state, r.calls, none⟩

/-- The operation `net_check_connectivity`. -/
def net_check_connectivity (s : State) : Outcome (Option net_error) :=
  if !NETWORK_AVAILABLE s then
    ⟨s, [], some .NET_ERR_NOT_AVAILABLE⟩
  else
    ⟨s, [], none⟩

/-- The `while (res)` loop of `net_lookup`: walks `res` along `ai_next` and gives the final
value of `result`, which moves to the first node of family `AF_INET` when there is one. -/
def lookup_scan : List addrinfo → List addrinfo → List addrinfo
  | [], result => result
  | a :: next, result =>
    if a.ai_family = AF_INET then a :: next else lookup_scan next result

/-- The operation `net_lookup`, with the resolver `getaddrinfo` as a parameter giving its
return code and result list. The value is the outcome together with the contents of
`*address` afterwards; `none` stands for the dereference of a `NULL` result pointer. -/
def net_lookup (getaddrinfo : String → addrinfo_hints → Int × List addrinfo)
    (s : State) (name : String) (address : sockaddr_in) :
    Option (Outcome (Option net_error) × sockaddr_in) :=
  let chk := net_check_connectivity s
  match chk.ret with
  | some error => some (⟨chk.state, chk.calls, some error⟩, address)
  | none =>
    let hints : addrinfo_hints := ⟨0, AF_INET, SOCK_STREAM, IPPROTO_TCP⟩
    let (rc, result) := getaddrinfo name hints
    let calls := chk.calls ++ [Call.getaddrinfo name hints]
    if rc = 0 then
      match lookup_scan result result with
      | [] => none
      | a :: next =>
        let address1 : sockaddr_in :=
          if a.ai_family = AF_INET then
            { address with
              sin_port := htons 0, sin_family := AF_INET, sin_addr := a.ai_addr.sin_addr }
          else
            address
        some (⟨chk.state, calls ++ [Call.freeaddrinfo (a :: next)], none⟩, address1)
    else
      some (⟨chk.state, calls ++ [Call.printf rc], none⟩, address)

/-! ## Event delivery -/

/-- Delivery of one event to the sink, the calls being appended to the trace so far. -/
def dispatch (WIFI_CONNECT_RETRIES : Nat) (r : Run) (event_id : system_event_id) : Run :=
  let o := event_handler WIFI_CONNECT_RETRIES r.state event_id
  ⟨o.state, r.calls ++ o.calls⟩

/-- Delivery of a finite sequence of events, one after the other, from state `s`. -/
def deliver (WIFI_CONNECT_RETRIES : Nat) (s : State) (events : List system_event_id) : Run :=
  events.foldl (dispatch WIFI_CONNECT_RETRIES) ⟨s, []⟩

/-! ## Vocabulary of the link-state claims -/

/-- The events that report the wired link going up or down. -/
def eth_link_event : system_event_id → Bool
  | .SYSTEM_EVENT_SPI_ETH_CONNECTED => true
  | .SYSTEM_EVENT_SPI_ETH_DISCONNECTED => true
  | _ => false

/-- The events that report the Wi-Fi link (station or access point) going up or down. -/
def wifi_link_event : system_event_id → Bool
  | .SYSTEM_EVENT_STA_CONNECTED => true
  | .SYSTEM_EVENT_AP_START => true
  | .SYSTEM_EVENT_AP_STOP => true
  | .SYSTEM_EVENT_STA_DISCONNECTED => true
  | _ => false

/-- The last event of a sequence that satisfies `p`, if there is one. -/
def last_event (p : system_event_id → Bool) (events : List system_event_id) :
    Option system_event_id :=
  (events.filter p).getLast?

/-! ## Connectivity query -/

/-- C1: in every state `net_check_connectivity` returns no error exactly when one of the
connected flags `WIFI_CONNECTED`, `SPI_ETH_CONNECTED` is set, and the `NotAvailable` error
otherwise; any one of the two flags alone is enough. -/
theorem C1_check_connectivity_iff (s : State) :
    ((net_check_connectivity s).ret = none ↔
        (s.wifi_connected = true ∨ s.spi_eth_connected = true)) ∧
    ((net_check_connectivity s).ret ≠ none →
        (net_check_connectivity s).ret = some net_error.NET_ERR_NOT_AVAILABLE) ∧
    (net_check_connectivity { s with wifi_connected := true }).ret = none ∧
    (net_check_connectivity { s with spi_eth_connected := true }).ret = none := by
  cases hw : s.wifi_connected <;> cases he : s.spi_eth_connected <;>
    simp [net_check_connectivity, NETWORK_AVAILABLE, status_get, hw, he]

/-! ## Bounded retries -/

/-- Delivering one more event after a sequence is one more `dispatch`. -/
theorem deliver_snoc (c : Nat) (s : State) (es : List system_event_id) (e : system_event_id) :
    deliver c s (es ++ [e]) = dispatch c (deliver c s es) e := by
  simp [deliver, List.foldl_append]

/-- While the counter has not passed the ceiling, a run of `k` station-disconnected events
from a disconnected state with counter 0 only counts up to `k` and asks for `2 * k`
reconnections. -/
theorem deliver_retry_run (c : Nat) (s : State) (h0 : s.retries = 0)
    (hw : s.wifi_connected = false) :
    ∀ k, k ≤ c + 1 → k ≤ 255 →
      deliver c s (List.replicate k system_event_id.SYSTEM_EVENT_STA_DISCONNECTED) =
        ⟨{ s with retries := k }, List.replicate (2 * k) Call.esp_wifi_connect⟩ := by
  intro k
  induction k with
  | zero =>
    intro _ _
    cases s
    simp only at h0
    subst h0
    rfl
  | succ k ih =>
    intro hk hb
    rw [List.replicate_succ', deliver_snoc, ih (by omega) (by omega)]
    have hnot : ¬ (k > c) := by omega
    have hmod : (k + 1) % 256 = k + 1 := Nat.mod_eq_of_lt (by omega)
    have hrep : List.replicate (2 * (k + 1)) Call.esp_wifi_connect =
        List.replicate (2 * k) Call.esp_wifi_connect ++
          [Call.esp_wifi_connect, Call.esp_wifi_connect] := by
      rw [show 2 * (k + 1) = 2 * k + 2 by ring, List.replicate_add]
      rfl
    simp [dispatch, event_handler, status_get, status_clear, status_write, esp_wifi_connect,
      retries_incr, retries_assign, hw, hnot, hmod, hrep]

/-- C2: from a state with the retry counter at 0 and `WIFI_CONNECTED` clear, with a ceiling
of at most 254, after the `k`-th consecutive station-disconnected event (`1 ≤ k ≤ ceiling+1`)
the counter is `k`, no call has set `CANT_CONNECT` and the signal group is as it was; the
event number `ceiling+2` sets `CANT_CONNECT` and leaves the counter at 0. -/
theorem C2_retry_until_ceiling (c : Nat) (s : State) (hc : c ≤ 254) (h0 : s.retries = 0)
    (hw : s.wifi_connected = false) :
    (∀ k, 1 ≤ k → k ≤ c + 1 →
      (deliver c s (List.replicate k system_event_id.SYSTEM_EVENT_STA_DISCONNECTED)).state.retries
          = k ∧
      Call.xEventGroupSetBits EventBit.evWIFI_CANT_CONNECT ∉
        (deliver c s (List.replicate k system_event_id.SYSTEM_EVENT_STA_DISCONNECTED)).calls ∧
      (deliver c s (List.replicate k system_event_id.SYSTEM_EVENT_STA_DISCONNECTED)).state.netEvent
          = s.netEvent) ∧
    (event_handler c
        (deliver c s
          (List.replicate (c + 1) system_event_id.SYSTEM_EVENT_STA_DISCONNECTED)).state
        system_event_id.SYSTEM_EVENT_STA_DISCONNECTED).calls
      = [Call.xEventGroupSetBits EventBit.evWIFI_CANT_CONNECT] ∧
    (deliver c s
        (List.replicate (c + 2) system_event_id.SYSTEM_EVENT_STA_DISCONNECTED)).state.retries
      = 0 ∧
    (deliver c s
        (List.replicate (c + 2) system_event_id.SYSTEM_EVENT_STA_DISCONNECTED)).state.netEvent
      = s.netEvent.map (fun g => { g with cant_connect := true }) := by
  have hlast := deliver_retry_run c s h0 hw (c + 1) (le_refl _) (by omega)
  refine ⟨?_, ?_, ?_, ?_⟩
  · intro k _ hk
    rw [deliver_retry_run c s h0 hw k hk (by omega)]
    refine ⟨rfl, ?_, rfl⟩
    intro hmem
    have := List.eq_of_mem_replicate hmem
    cases this
  · rw [hlast]
    simp [event_handler, status_get, status_clear, status_write, xEventGroupSetBits,
      retries_assign, hw]
  · rw [show c + 2 = (c + 1) + 1 by ring, List.replicate_succ', deliver_snoc, hlast]
    simp [dispatch, event_handler, status_get, status_clear, status_write, xEventGroupSetBits,
      retries_assign, hw]
  · rw [show c + 2 = (c + 1) + 1 by ring, List.replicate_succ', deliver_snoc, hlast]
    simp [dispatch, event_handler, status_get, status_clear, status_write, xEventGroupSetBits,
      retries_assign, hw, EventBits.set]

/-- C2 at ceiling 1 from the state of a fresh start: events 1 and 2 are retried, event 3
gives up. -/
theorem C2_retry_until_ceiling_witness :
    (∀ k, 1 ≤ k → k ≤ 1 + 1 →
      (deliver 1 ⟨true, false, false, 0, some EventBits.empty, some Callback.event_handler⟩
        (List.replicate k system_event_id.SYSTEM_EVENT_STA_DISCONNECTED)).state.retries = k ∧
      Call.xEventGroupSetBits EventBit.evWIFI_CANT_CONNECT ∉
        (deliver 1 ⟨true, false, false, 0, some EventBits.empty, some Callback.event_handler⟩
          (List.replicate k system_event_id.SYSTEM_EVENT_STA_DISCONNECTED)).calls ∧
      (deliver 1 ⟨true, false, false, 0, some EventBits.empty, some Callback.event_handler⟩
        (List.replicate k system_event_id.SYSTEM_EVENT_STA_DISCONNECTED)).state.netEvent
          = some EventBits.empty) ∧
    (event_handler 1
        (deliver 1 ⟨true, false, false, 0, some EventBits.empty, some Callback.event_handler⟩
          (List.replicate (1 + 1) system_event_id.SYSTEM_EVENT_STA_DISCONNECTED)).state
        system_event_id.SYSTEM_EVENT_STA_DISCONNECTED).calls
      = [Call.xEventGroupSetBits EventBit.evWIFI_CANT_CONNECT] ∧
    (deliver 1 ⟨true, false, false, 0, some EventBits.empty, some Callback.event_handler⟩
        (List.replicate (1 + 2) system_event_id.SYSTEM_EVENT_STA_DISCONNECTED)).state.retries
      = 0 ∧
    (deliver 1 ⟨true, false, false, 0, some EventBits.empty, some Callback.event_handler⟩
        (List.replicate (1 + 2) system_event_id.SYSTEM_EVENT_STA_DISCONNECTED)).state.netEvent
      = some ⟨false, false, true, false⟩ :=
  C2_retry_until_ceiling 1
    ⟨true, false, false, 0, some EventBits.empty, some Callback.event_handler⟩
    (by decide) rfl rfl

/-! ## Hostname lookup -/

/-- The scan stops at the first node of family `AF_INET`, when the list has one. -/
theorem lookup_scan_of_find (res result : List addrinfo) (a : addrinfo)
    (h : res.find? (fun x => decide (x.ai_family = AF_INET)) = some a) :
    a.ai_family = AF_INET ∧ ∃ next, lookup_scan res result = a :: next := by
  induction res with
  | nil => simp at h
  | cons x xs ih =>
    by_cases hx : x.ai_family = AF_INET
    · have hxa : x = a := by simpa [List.find?, hx] using h
      subst hxa
      exact ⟨hx, xs, by simp [lookup_scan, hx]⟩
    · have hrest : xs.find? (fun x => decide (x.ai_family = AF_INET)) = some a := by
        simpa [List.find?, hx] using h
      obtain ⟨ha, next, hn⟩ := ih hrest
      exact ⟨ha, next, by simp [lookup_scan, hx, hn]⟩

/-- C3: for every hostname, output address and resolver, when no connected flag is set
`net_lookup` returns the `NotAvailable` error, makes no call at all (so none to the
resolver) and leaves the state and the output address as they were. -/
theorem C3_lookup_not_available (getaddrinfo : String → addrinfo_hints → Int × List addrinfo)
    (s : State) (name : String) (address : sockaddr_in)
    (hw : s.wifi_connected = false) (he : s.spi_eth_connected = false) :
    net_lookup getaddrinfo s name address =
      some (⟨s, [], some net_error.NET_ERR_NOT_AVAILABLE⟩, address) := by
  simp [net_lookup, net_check_connectivity, NETWORK_AVAILABLE, status_get, hw, he]

/-- C3 on a state with every flag clear, for the name `example.test`. -/
theorem C3_lookup_not_available_witness :
    net_lookup (fun _ _ => (0, [⟨AF_INET, ⟨16, AF_INET, 0, 167772161, 0⟩⟩]))
        ⟨false, false, false, 0, none, none⟩ "example.test" ⟨0, 0, 7, 9, 0⟩ =
      some (⟨⟨false, false, false, 0, none, none⟩, [],
        some net_error.NET_ERR_NOT_AVAILABLE⟩, ⟨0, 0, 7, 9, 0⟩) :=
  C3_lookup_not_available _ ⟨false, false, false, 0, none, none⟩ "example.test"
    ⟨0, 0, 7, 9, 0⟩ rfl rfl

/-- C4: when connectivity is available and the resolver succeeds with a list whose first
entry of family IPv4 is `a`, `net_lookup` returns no error and the output address has family
IPv4, port 0 and the IP address of `a`, its other fields being as passed in; the state is
unchanged. -/
theorem C4_lookup_first_ipv4 (getaddrinfo : String → addrinfo_hints → Int × List addrinfo)
    (s : State) (name : String) (address : sockaddr_in) (res : List addrinfo) (a : addrinfo)
    (hav : (net_check_connectivity s).ret = none)
    (hres : getaddrinfo name ⟨0, AF_INET, SOCK_STREAM, IPPROTO_TCP⟩ = (0, res))
    (hfirst : res.find? (fun x => decide (x.ai_family = AF_INET)) = some a) :
    net_lookup getaddrinfo s name address =
      some (⟨s, [Call.getaddrinfo name ⟨0, AF_INET, SOCK_STREAM, IPPROTO_TCP⟩,
                 Call.freeaddrinfo (lookup_scan res res)],
             none⟩,
            { address with
              sin_family := AF_INET, sin_port := 0, sin_addr := a.ai_addr.sin_addr }) := by
  obtain ⟨ha, next, hn⟩ := lookup_scan_of_find res res a hfirst
  have hs : (net_check_connectivity s).state = s := by
    unfold net_check_connectivity
    split <;> rfl
  have hcalls : (net_check_connectivity s).calls = [] := by
    unfold net_check_connectivity
    split <;> rfl
  simp only [net_lookup, hav, hres, hn, ha, hs, hcalls]
  simp [htons]

/-- C4 on the list [IPv6, IPv4]: the IPv4 entry is selected. -/
theorem C4_lookup_first_ipv4_witness :
    net_lookup
        (fun _ _ => (0, [⟨AF_INET6, ⟨16, AF_INET6, 80, 1, 0⟩⟩,
                         ⟨AF_INET, ⟨16, AF_INET, 80, 167772161, 0⟩⟩]))
        ⟨true, true, false, 0, some EventBits.empty, some Callback.event_handler⟩
        "example.test" ⟨0, 0, 7, 9, 0⟩ =
      some (⟨⟨true, true, false, 0, some EventBits.empty, some Callback.event_handler⟩,
             [Call.getaddrinfo "example.test" ⟨0, AF_INET, SOCK_STREAM, IPPROTO_TCP⟩,
              Call.freeaddrinfo [⟨AF_INET, ⟨16, AF_INET, 80, 167772161, 0⟩⟩]],
             none⟩,
            ⟨0, AF_INET, 0, 167772161, 0⟩) :=
  C4_lookup_first_ipv4
    (fun _ _ => (0, [⟨AF_INET6, ⟨16, AF_INET6, 80, 1, 0⟩⟩,
                     ⟨AF_INET, ⟨16, AF_INET, 80, 167772161, 0⟩⟩]))
    ⟨true, true, false, 0, some EventBits.empty, some Callback.event_handler⟩
    "example.test" ⟨0, 0, 7, 9, 0⟩
    [⟨AF_INET6, ⟨16, AF_INET6, 80, 1, 0⟩⟩, ⟨AF_INET, ⟨16, AF_INET, 80, 167772161, 0⟩⟩]
    ⟨AF_INET, ⟨16, AF_INET, 80, 167772161, 0⟩⟩
    rfl rfl rfl

/-- C5: when connectivity is available and the resolver returns a non-zero code,
`net_lookup` returns no error, after the resolver call it only prints the code, and the
state and every field of the output address are as the caller passed them. -/
theorem C5_lookup_resolver_failure
    (getaddrinfo : String → addrinfo_hints → Int × List addrinfo)
    (s : State) (name : String) (address : sockaddr_in)
    (hav : (net_check_connectivity s).ret = none)
    (hrc : (getaddrinfo name ⟨0, AF_INET, SOCK_STREAM, IPPROTO_TCP⟩).1 ≠ 0) :
    net_lookup getaddrinfo s name address =
      some (⟨s, [Call.getaddrinfo name ⟨0, AF_INET, SOCK_STREAM, IPPROTO_TCP⟩,
                 Call.printf (getaddrinfo name ⟨0, AF_INET, SOCK_STREAM, IPPROTO_TCP⟩).1],
             none⟩, address) := by
  have hs : (net_check_connectivity s).state = s := by
    unfold net_check_connectivity
    split <;> rfl
  have hcalls : (net_check_connectivity s).calls = [] := by
    unfold net_check_connectivity
    split <;> rfl
  simp only [net_lookup, hav, hs, hcalls]
  simp [hrc]

/-- C5 with a resolver that fails with code 202 although it hands back a list. -/
theorem C5_lookup_resolver_failure_witness :
    net_lookup (fun _ _ => (202, [⟨AF_INET, ⟨16, AF_INET, 80, 167772161, 0⟩⟩]))
        ⟨true, false, true, 3, some EventBits.empty, some Callback.event_handler⟩
        "example.test" ⟨0, 0, 7, 9, 0⟩ =
      some (⟨⟨true, false, true, 3, some EventBits.empty, some Callback.event_handler⟩,
             [Call.getaddrinfo "example.test" ⟨0, AF_INET, SOCK_STREAM, IPPROTO_TCP⟩,
              Call.printf 202],
             none⟩, ⟨0, 0, 7, 9, 0⟩) :=
  C5_lookup_resolver_failure (fun _ _ => (202, [⟨AF_INET, ⟨16, AF_INET, 80, 167772161, 0⟩⟩]))
    ⟨true, false, true, 3, some EventBits.empty, some Callback.event_handler⟩
    "example.test" ⟨0, 0, 7, 9, 0⟩ rfl (by decide)

/-! ## Initialisation -/

/-- C6: in every state with `TCPIP_INITED` set `net_init` returns no error, makes no call
(no group is created, no sink installed) and leaves the whole state, the retry counter
included, as it was; and in every state a second `net_init` right after a first one does
nothing, so twice gives the same state as once. -/
theorem C6_net_init_idempotent (s : State) :
    (s.tcpip_inited = true → net_init s = ⟨s, [], none⟩) ∧
    net_init (net_init s).state = ⟨(net_init s).state, [], none⟩ := by
  constructor
  · intro h
    simp [net_init, status_get, h]
  · cases h : s.tcpip_inited <;>
      simp [net_init, status_get, status_set, status_write, retries_assign, xEventGroupCreate,
        tcpip_adapter_init, esp_event_loop_init, h]

/-- C6 on an initialised state whose retry counter is 2 and whose group has a bit set. -/
theorem C6_net_init_idempotent_witness :
    net_init ⟨true, false, true, 2, some ⟨false, true, false, false⟩,
        some Callback.event_handler⟩ =
      ⟨⟨true, false, true, 2, some ⟨false, true, false, false⟩, some Callback.event_handler⟩,
        [], none⟩ :=
  (C6_net_init_idempotent
    ⟨true, false, true, 2, some ⟨false, true, false, false⟩, some Callback.event_handler⟩).1 rfl

/-- C7: in every state with `TCPIP_INITED` clear `net_init` returns no error and sets
`TCPIP_INITED`, puts the retry counter to 0, creates a new signal group (all bits clear),
starts the IP-stack adapter and installs `event_handler` as the event sink, in this order;
`WIFI_CONNECTED` and `SPI_ETH_CONNECTED` keep their values. In no state does `net_init`
return an error. -/
theorem C7_net_init_fresh (s : State) :
    (s.tcpip_inited = false →
      net_init s =
        ⟨{ s with
            tcpip_inited := true, retries := 0, netEvent := some EventBits.empty,
            event_loop_cb := some Callback.event_handler },
          [Call.xEventGroupCreate, Call.tcpip_adapter_init,
            Call.esp_event_loop_init Callback.event_handler],
          none⟩ ∧
      (net_init s).state.wifi_connected = s.wifi_connected ∧
      (net_init s).state.spi_eth_connected = s.spi_eth_connected) ∧
    (net_init s).ret = none := by
  refine ⟨?_, rfl⟩
  intro h
  simp [net_init, status_get, status_set, status_write, retries_assign, xEventGroupCreate,
    tcpip_adapter_init, esp_event_loop_init, h]

/-- C7 on a state with a stale counter, a stale group and the wired link up. -/
theorem C7_net_init_fresh_witness :
    net_init ⟨false, false, true, 5, some ⟨true, true, true, true⟩, none⟩ =
        ⟨⟨true, false, true, 0, some EventBits.empty, some Callback.event_handler⟩,
          [Call.xEventGroupCreate, Call.tcpip_adapter_init,
            Call.esp_event_loop_init Callback.event_handler],
          none⟩ ∧
      (net_init ⟨false, false, true, 5, some ⟨true, true, true, true⟩, none⟩).state.wifi_connected
        = false ∧
      (net_init
          ⟨false, false, true, 5, some ⟨true, true, true, true⟩, none⟩).state.spi_eth_connected
        = true :=
  (C7_net_init_fresh ⟨false, false, true, 5, some ⟨true, true, true, true⟩, none⟩).1 rfl

/-! ## Station disconnection -/

/-- C8, as stated, fails on the give-up path: with ceiling 2, `WIFI_CONNECTED` clear and the
counter at 3, a station-disconnected event only sets `CANT_CONNECT`; no reconnect request is
issued, the `break` of the give-up branch leaving the `switch` before the trailing
`esp_wifi_connect()`. -/
theorem C8_give_up_no_reconnect :
    (event_handler 2 ⟨true, false, false, 3, some EventBits.empty, some Callback.event_handler⟩
        system_event_id.SYSTEM_EVENT_STA_DISCONNECTED).calls
      = [Call.xEventGroupSetBits EventBit.evWIFI_CANT_CONNECT] ∧
    Call.esp_wifi_connect ∉
      (event_handler 2
        ⟨true, false, false, 3, some EventBits.empty, some Callback.event_handler⟩
        system_event_id.SYSTEM_EVENT_STA_DISCONNECTED).calls := by
  decide

/-- C8, amended: on a station-disconnected event `WIFI_CONNECTED` is clear afterwards on
every path. Off the give-up path the handler ends by issuing a reconnect request (the last
call it makes) and makes no call that sets `CANT_CONNECT`. On the give-up path
(`WIFI_CONNECTED` clear and counter above the ceiling) it clears `WIFI_CONNECTED`, sets
`CANT_CONNECT`, resets the retry counter to 0 and changes nothing else; that one call is its
only call, so no reconnect request is issued. -/
theorem C8_sta_disconnected_tail (c : Nat) (s : State) :
    (event_handler c s system_event_id.SYSTEM_EVENT_STA_DISCONNECTED).state.wifi_connected
      = false ∧
    (¬ (s.wifi_connected = false ∧ s.retries > c) →
      (event_handler c s system_event_id.SYSTEM_EVENT_STA_DISCONNECTED).calls.getLast?
        = some Call.esp_wifi_connect ∧
      Call.xEventGroupSetBits EventBit.evWIFI_CANT_CONNECT ∉
        (event_handler c s system_event_id.SYSTEM_EVENT_STA_DISCONNECTED).calls) ∧
    ((s.wifi_connected = false ∧ s.retries > c) →
      event_handler c s system_event_id.SYSTEM_EVENT_STA_DISCONNECTED =
        ⟨{ s with
            wifi_connected := false, retries := 0,
            netEvent := s.netEvent.map (fun g => g.set EventBit.evWIFI_CANT_CONNECT) },
          [Call.xEventGroupSetBits EventBit.evWIFI_CANT_CONNECT], ESP_OK⟩ ∧
      Call.esp_wifi_connect ∉
        (event_handler c s system_event_id.SYSTEM_EVENT_STA_DISCONNECTED).calls) := by
  cases hw : s.wifi_connected <;> by_cases hr : s.retries > c <;>
    simp [event_handler, status_get, status_clear, status_write, esp_wifi_connect,
      xEventGroupSetBits, retries_assign, retries_incr, hw, hr]

/-- C8 amended, off the give-up path (link up, counter above the ceiling): the last call is a
reconnect request and `CANT_CONNECT` is not set; and on the give-up path at ceiling 2 with
the counter at 3: the counter is reset, the bit set and no reconnect request issued. -/
theorem C8_sta_disconnected_tail_witness :
    ((event_handler 2 ⟨true, true, false, 3, some EventBits.empty, some Callback.event_handler⟩
        system_event_id.SYSTEM_EVENT_STA_DISCONNECTED).calls.getLast?
      = some Call.esp_wifi_connect ∧
     Call.xEventGroupSetBits EventBit.evWIFI_CANT_CONNECT ∉
      (event_handler 2
        ⟨true, true, false, 3, some EventBits.empty, some Callback.event_handler⟩
        system_event_id.SYSTEM_EVENT_STA_DISCONNECTED).calls) ∧
    (event_handler 2 ⟨true, false, false, 3, some EventBits.empty, some Callback.event_handler⟩
        system_event_id.SYSTEM_EVENT_STA_DISCONNECTED =
      ⟨⟨true, false, false, 0, some (EventBits.empty.set EventBit.evWIFI_CANT_CONNECT),
          some Callback.event_handler⟩,
        [Call.xEventGroupSetBits EventBit.evWIFI_CANT_CONNECT], ESP_OK⟩ ∧
     Call.esp_wifi_connect ∉
      (event_handler 2
        ⟨true, false, false, 3, some EventBits.empty, some Callback.event_handler⟩
        system_event_id.SYSTEM_EVENT_STA_DISCONNECTED).calls) :=
  ⟨(C8_sta_disconnected_tail 2
      ⟨true, true, false, 3, some EventBits.empty, some Callback.event_handler⟩).2.1
      (by decide),
   (C8_sta_disconnected_tail 2
      ⟨true, false, false, 3, some EventBits.empty, some Callback.event_handler⟩).2.2
      (by decide)⟩

/-- C9: on a station-disconnected event received with `WIFI_CONNECTED` clear and the retry
counter not greater than the ceiling (the retry path), for every ceiling that leaves the
8-bit counter room to exceed it (at most 254), the counter goes up by exactly one,
`WIFI_CONNECTED` stays clear, nothing else of the state changes (the signal group included,
so `CANT_CONNECT` is not set) and the calls made are exactly two reconnect requests. -/
theorem C9_retry_path (c : Nat) (s : State) (hc : c ≤ 254) (hw : s.wifi_connected = false)
    (hr : s.retries ≤ c) :
    event_handler c s system_event_id.SYSTEM_EVENT_STA_DISCONNECTED =
      ⟨{ s with retries := s.retries + 1 },
        [Call.esp_wifi_connect, Call.esp_wifi_connect], ESP_OK⟩ ∧
    (event_handler c s system_event_id.SYSTEM_EVENT_STA_DISCONNECTED).state.wifi_connected
      = false ∧
    Call.xEventGroupSetBits EventBit.evWIFI_CANT_CONNECT ∉
      (event_handler c s system_event_id.SYSTEM_EVENT_STA_DISCONNECTED).calls := by
  have hnot : ¬ (s.retries > c) := by omega
  have hmod : (s.retries + 1) % 256 = s.retries + 1 := Nat.mod_eq_of_lt (by omega)
  simp [event_handler, status_get, status_clear, status_write, esp_wifi_connect,
    retries_incr, retries_assign, hw, hnot, hmod]

/-- C9 at ceiling 2 with the counter at 2. -/
theorem C9_retry_path_witness :
    event_handler 2 ⟨true, false, true, 2, some EventBits.empty, some Callback.event_handler⟩
        system_event_id.SYSTEM_EVENT_STA_DISCONNECTED =
      ⟨⟨true, false, true, 2 + 1, some EventBits.empty, some Callback.event_handler⟩,
        [Call.esp_wifi_connect, Call.esp_wifi_connect], ESP_OK⟩ ∧
    (event_handler 2 ⟨true, false, true, 2, some EventBits.empty, some Callback.event_handler⟩
        system_event_id.SYSTEM_EVENT_STA_DISCONNECTED).state.wifi_connected = false ∧
    Call.xEventGroupSetBits EventBit.evWIFI_CANT_CONNECT ∉
      (event_handler 2
        ⟨true, false, true, 2, some EventBits.empty, some Callback.event_handler⟩
        system_event_id.SYSTEM_EVENT_STA_DISCONNECTED).calls :=
  C9_retry_path 2 ⟨true, false, true, 2, some EventBits.empty, some Callback.event_handler⟩
    (by decide) rfl (by decide)

/-! ## Link-state flags -/

/-- One step of `event_handler` writes `SPI_ETH_CONNECTED` on the two wired-link events only:
set on connected, clear on disconnected. -/
theorem event_handler_spi_eth_connected (c : Nat) (s : State) (e : system_event_id) :
    (event_handler c s e).state.spi_eth_connected =
      if eth_link_event e then decide (e = system_event_id.SYSTEM_EVENT_SPI_ETH_CONNECTED)
      else s.spi_eth_connected := by
  cases e <;>
    simp [event_handler, eth_link_event, status_get, status_set, status_clear, status_write,
      esp_wifi_connect, xEventGroupSetBits, retries_assign, retries_incr]
  split_ifs <;> rfl

/-- One step of `event_handler` writes `WIFI_CONNECTED` on the four Wi-Fi link events only:
set on station-connected and access-point-start, clear on the other two. -/
theorem event_handler_wifi_connected (c : Nat) (s : State) (e : system_event_id) :
    (event_handler c s e).state.wifi_connected =
      if wifi_link_event e then
        decide (e = system_event_id.SYSTEM_EVENT_STA_CONNECTED ∨
          e = system_event_id.SYSTEM_EVENT_AP_START)
      else s.wifi_connected := by
  cases e <;>
    simp [event_handler, wifi_link_event, status_get, status_set, status_clear, status_write,
      esp_wifi_connect, xEventGroupSetBits, retries_assign, retries_incr]
  split_ifs <;> rfl

/-- The last event satisfying `p` after one more event. -/
theorem last_event_snoc (p : system_event_id → Bool) (es : List system_event_id)
    (e : system_event_id) :
    last_event p (es ++ [e]) = if p e then some e else last_event p es := by
  unfold last_event
  by_cases h : p e = true
  · simp [List.filter_append, h, List.getLast?_append]
  · simp [List.filter_append, h]

/-- C10: for every starting state and every finite sequence of events delivered to
`event_handler`, `SPI_ETH_CONNECTED` is afterwards set if the last wired-link
connected/disconnected event was connected, clear if it was disconnected, unchanged if
there was none; and `WIFI_CONNECTED` is set if the last event among station-connected,
access-point-start, access-point-stop and station-disconnected was one of the first two,
clear if it was one of the last two, unchanged if there was none. -/
theorem C10_flags_reflect_last_event (c : Nat) (s : State) (events : List system_event_id) :
    (deliver c s events).state.spi_eth_connected =
      (match last_event eth_link_event events with
        | none => s.spi_eth_connected
        | some e => decide (e = system_event_id.SYSTEM_EVENT_SPI_ETH_CONNECTED)) ∧
    (deliver c s events).state.wifi_connected =
      (match last_event wifi_link_event events with
        | none => s.wifi_connected
        | some e => decide (e = system_event_id.SYSTEM_EVENT_STA_CONNECTED ∨
            e = system_event_id.SYSTEM_EVENT_AP_START)) := by
  induction events using List.reverseRecOn with
  | nil => exact ⟨rfl, rfl⟩
  | append_singleton es e ih =>
    obtain ⟨ihe, ihw⟩ := ih
    rw [deliver_snoc, last_event_snoc, last_event_snoc]
    constructor
    · show (event_handler c (deliver c s es).state e).state.spi_eth_connected = _
      rw [event_handler_spi_eth_connected]
      by_cases h : eth_link_event e = true
      · simp [h]
      · simp [h, ihe]
    · show (event_handler c (deliver c s es).state e).state.wifi_connected = _
      rw [event_handler_wifi_connected]
      by_cases h : wifi_link_event e = true
      · simp [h]
      · simp [h, ihw]

/-! ## Notification events -/

/-- Setting a bit of a group leaves every other bit of the group as it was. -/
theorem EventBits.get_set (g : EventBits) (b b1 : EventBit) :
    (g.set b).get b1 = (decide (b1 = b) || g.get b1) := by
  cases b <;> cases b1 <;> simp [EventBits.set, EventBits.get]

/-- Setting a bit that has just been set changes nothing. -/
theorem EventBits.set_set (g : EventBits) (b : EventBit) : (g.set b).set b = g.set b := by
  cases b <;> rfl

/-- C11: on station-got-ipv4, ap-station-got-ipv6, scan-complete and wired-link-got-ip,
`event_handler` makes the one call that sets its notification bit (`CONNECTED`, `CONNECTED`,
`SCAN_END`, wired connectivity) and changes nothing else: the other bits of the group, every
status flag and the retry counter keep their values, no reconnect request is issued, and
`net_check_connectivity` gives the same result after the event as before. -/
theorem C11_notification_events_frame (c : Nat) (s : State) :
    event_handler c s system_event_id.SYSTEM_EVENT_STA_GOT_IP =
      ⟨{ s with netEvent := s.netEvent.map (fun g => g.set EventBit.evWIFI_CONNECTED) },
        [Call.xEventGroupSetBits EventBit.evWIFI_CONNECTED], ESP_OK⟩ ∧
    event_handler c s system_event_id.SYSTEM_EVENT_AP_STA_GOT_IP6 =
      ⟨{ s with netEvent := s.netEvent.map (fun g => g.set EventBit.evWIFI_CONNECTED) },
        [Call.xEventGroupSetBits EventBit.evWIFI_CONNECTED], ESP_OK⟩ ∧
    event_handler c s system_event_id.SYSTEM_EVENT_SCAN_DONE =
      ⟨{ s with netEvent := s.netEvent.map (fun g => g.set EventBit.evWIFI_SCAN_END) },
        [Call.xEventGroupSetBits EventBit.evWIFI_SCAN_END], ESP_OK⟩ ∧
    event_handler c s system_event_id.SYSTEM_EVENT_SPI_ETH_GOT_IP =
      ⟨{ s with netEvent := s.netEvent.map (fun g => g.set EventBit.evSPI_ETH_CONNECTED) },
        [Call.xEventGroupSetBits EventBit.evSPI_ETH_CONNECTED], ESP_OK⟩ ∧
    (∀ (g : EventBits) (b b1 : EventBit), b1 ≠ b → (g.set b).get b1 = g.get b1) ∧
    (∀ (g : EventBits) (b : EventBit), (g.set b).get b = true) ∧
    (∀ e, e = system_event_id.SYSTEM_EVENT_STA_GOT_IP ∨
          e = system_event_id.SYSTEM_EVENT_AP_STA_GOT_IP6 ∨
          e = system_event_id.SYSTEM_EVENT_SCAN_DONE ∨
          e = system_event_id.SYSTEM_EVENT_SPI_ETH_GOT_IP →
      (net_check_connectivity (event_handler c s e).state).ret =
        (net_check_connectivity s).ret) := by
  refine ⟨rfl, rfl, rfl, rfl, ?_, ?_, ?_⟩
  · intro g b b1 h
    simp [EventBits.get_set, h]
  · intro g b
    simp [EventBits.get_set]
  · intro e he
    rcases he with h | h | h | h <;> subst h <;>
      simp only [net_check_connectivity, NETWORK_AVAILABLE, status_get, event_handler,
        xEventGroupSetBits] <;>
      split_ifs <;> rfl

/-- C11 at scan-complete, in a state with the wired link up and a retry counter of 2. -/
theorem C11_notification_events_frame_witness :
    (net_check_connectivity
        (event_handler 2
          ⟨true, false, true, 2, some EventBits.empty, some Callback.event_handler⟩
          system_event_id.SYSTEM_EVENT_SCAN_DONE).state).ret =
      (net_check_connectivity
        ⟨true, false, true, 2, some EventBits.empty, some Callback.event_handler⟩).ret :=
  (C11_notification_events_frame 2
    ⟨true, false, true, 2, some EventBits.empty, some Callback.event_handler⟩).2.2.2.2.2.2
    system_event_id.SYSTEM_EVENT_SCAN_DONE (Or.inr (Or.inr (Or.inl rfl)))

/-! ## Retry counter and successful connection -/

/-- C12, as stated, fails: with the retry counter at 3, a station-connected event leaves the
counter at 3; the handler only sets `WIFI_CONNECTED`. -/
theorem C12_sta_connected_keeps_retries :
    (event_handler 2 ⟨true, false, false, 3, some EventBits.empty, some Callback.event_handler⟩
        system_event_id.SYSTEM_EVENT_STA_CONNECTED).state.retries = 3 := by
  decide

/-- C12, amended: a station-connected event sets `WIFI_CONNECTED` and leaves the retry
counter, like the rest of the state, as it was, and a station-got-ipv4 event leaves the
counter as it was too; so the counter is 0 after a successful connection exactly when it
was 0 before. -/
theorem C12_retries_not_reset_on_connection (c : Nat) (s : State) :
    event_handler c s system_event_id.SYSTEM_EVENT_STA_CONNECTED =
      ⟨{ s with wifi_connected := true }, [], ESP_OK⟩ ∧
    (event_handler c s system_event_id.SYSTEM_EVENT_STA_CONNECTED).state.retries = s.retries ∧
    (event_handler c s system_event_id.SYSTEM_EVENT_STA_GOT_IP).state.retries = s.retries :=
  ⟨rfl, rfl, rfl⟩

/-! ## Pure read -/

/-- C13: `net_check_connectivity` is a pure read: in every state, whether it succeeds or
fails, it makes no call and the state afterwards (status flags, retry counter, notification
bits) is the state before; and the result after any number of earlier calls is the result of
the first. -/
theorem C13_check_connectivity_pure (s : State) :
    (net_check_connectivity s).state = s ∧
    (net_check_connectivity s).calls = [] ∧
    (∀ n : Nat,
      net_check_connectivity ((fun t => (net_check_connectivity t).state)^[n] s) =
        net_check_connectivity s) := by
  have hstate : ∀ t : State, (net_check_connectivity t).state = t := by
    intro t
    unfold net_check_connectivity
    split <;> rfl
  refine ⟨hstate s, ?_, ?_⟩
  · unfold net_check_connectivity
    split <;> rfl
  · intro n
    induction n with
    | zero => rfl
    | succ n ih =>
      rw [Function.iterate_succ_apply, hstate]
      exact ih

/-! ## Ignored events -/

/-- C14: on a station-link-stop event, and on every event kind that has no `case` of its own,
`event_handler` does nothing: the state (status flags, retry counter, notification bits) is
unchanged, no call is made (so no reconnect request), and `ESP_OK` is returned. -/
theorem C14_ignored_events (c : Nat) (s : State) :
    event_handler c s system_event_id.SYSTEM_EVENT_STA_STOP = ⟨s, [], ESP_OK⟩ ∧
    (∀ id : Nat, event_handler c s (system_event_id.other id) = ⟨s, [], ESP_OK⟩) :=
  ⟨rfl, fun _ => rfl⟩

/-! ## Giving up -/

/-- C16: for every state and event, one step of `event_handler` makes the call that sets
`CANT_CONNECT` if and only if the event is station-disconnected, `WIFI_CONNECTED` is clear
and the retry counter is strictly greater than the ceiling; whenever it does, the retry
counter is 0 afterwards; and the `CANT_CONNECT` bit of the group afterwards is its value
before or-ed with that condition. -/
theorem C16_cant_connect_iff (c : Nat) (s : State) (e : system_event_id) :
    (Call.xEventGroupSetBits EventBit.evWIFI_CANT_CONNECT ∈ (event_handler c s e).calls ↔
      (e = system_event_id.SYSTEM_EVENT_STA_DISCONNECTED ∧ s.wifi_connected = false ∧
        s.retries > c)) ∧
    (Call.xEventGroupSetBits EventBit.evWIFI_CANT_CONNECT ∈ (event_handler c s e).calls →
      (event_handler c s e).state.retries = 0) ∧
    (event_handler c s e).state.netEvent.map (fun g => g.cant_connect) =
      s.netEvent.map (fun g => g.cant_connect ||
        decide (e = system_event_id.SYSTEM_EVENT_STA_DISCONNECTED ∧ s.wifi_connected = false ∧
          s.retries > c)) := by
  cases hn : s.netEvent <;> cases hw : s.wifi_connected <;> by_cases hr : s.retries > c <;>
    cases e <;>
    simp [event_handler, status_get, status_set, status_clear, status_write, esp_wifi_connect,
      xEventGroupSetBits, retries_assign, retries_incr, EventBits.set, hn, hw, hr]

/-- C16 on the give-up path at ceiling 2 with the counter at 3: the counter is 0 afterwards. -/
theorem C16_cant_connect_iff_witness :
    (event_handler 2 ⟨true, false, false, 3, some EventBits.empty, some Callback.event_handler⟩
        system_event_id.SYSTEM_EVENT_STA_DISCONNECTED).state.retries = 0 :=
  (C16_cant_connect_iff 2
    ⟨true, false, false, 3, some EventBits.empty, some Callback.event_handler⟩
    system_event_id.SYSTEM_EVENT_STA_DISCONNECTED).2.1 (by decide)

/-- C17: on a station-disconnected event received while `WIFI_CONNECTED` is set,
`event_handler` clears `WIFI_CONNECTED` and changes nothing else of the state (the retry
counter keeps its value, whatever it is, and the signal group is untouched, so
`CANT_CONNECT` is not set), and the calls it makes are exactly one reconnect request. -/
theorem C17_disconnect_while_connected (c : Nat) (s : State) (hw : s.wifi_connected = true) :
    event_handler c s system_event_id.SYSTEM_EVENT_STA_DISCONNECTED =
      ⟨{ s with wifi_connected := false }, [Call.esp_wifi_connect], ESP_OK⟩ := by
  simp [event_handler, status_get, status_clear, status_write, esp_wifi_connect, hw]

/-- C17 at ceiling 2 with the counter at 200, far above the ceiling. -/
theorem C17_disconnect_while_connected_witness :
    event_handler 2 ⟨true, true, false, 200, some EventBits.empty, some Callback.event_handler⟩
        system_event_id.SYSTEM_EVENT_STA_DISCONNECTED =
      ⟨⟨true, false, false, 200, some EventBits.empty, some Callback.event_handler⟩,
        [Call.esp_wifi_connect], ESP_OK⟩ :=
  C17_disconnect_while_connected 2
    ⟨true, true, false, 200, some EventBits.empty, some Callback.event_handler⟩ rfl

/-! ## Repeated notifications -/

/-- C18: for each notification-raising event (station-got-ipv4, ap-station-got-ipv6,
scan-complete, wired-link-got-ip) and every state, the state after processing the event twice
in a row is exactly the state after processing it once. -/
theorem C18_notification_twice (c : Nat) (s : State) :
    (event_handler c (event_handler c s system_event_id.SYSTEM_EVENT_STA_GOT_IP).state
        system_event_id.SYSTEM_EVENT_STA_GOT_IP).state =
      (event_handler c s system_event_id.SYSTEM_EVENT_STA_GOT_IP).state ∧
    (event_handler c (event_handler c s system_event_id.SYSTEM_EVENT_AP_STA_GOT_IP6).state
        system_event_id.SYSTEM_EVENT_AP_STA_GOT_IP6).state =
      (event_handler c s system_event_id.SYSTEM_EVENT_AP_STA_GOT_IP6).state ∧
    (event_handler c (event_handler c s system_event_id.SYSTEM_EVENT_SCAN_DONE).state
        system_event_id.SYSTEM_EVENT_SCAN_DONE).state =
      (event_handler c s system_event_id.SYSTEM_EVENT_SCAN_DONE).state ∧
    (event_handler c (event_handler c s system_event_id.SYSTEM_EVENT_SPI_ETH_GOT_IP).state
        system_event_id.SYSTEM_EVENT_SPI_ETH_GOT_IP).state =
      (event_handler c s system_event_id.SYSTEM_EVENT_SPI_ETH_GOT_IP).state := by
  refine ⟨?_, ?_, ?_, ?_⟩ <;>
    simp [event_handler, xEventGroupSetBits, Function.comp_def, EventBits.set_set]

/-! ## The counter stays within eight bits -/

/-- With a ceiling of at most 254, one step of `event_handler` keeps the retry counter at
or below ceiling + 1. -/
theorem event_handler_retries_le (c : Nat) (hc : c ≤ 254) (s : State) (e : system_event_id)
    (h : s.retries ≤ c + 1) : (event_handler c s e).state.retries ≤ c + 1 := by
  cases e <;>
    simp [event_handler, status_get, status_set, status_clear, status_write, esp_wifi_connect,
      xEventGroupSetBits, retries_assign, retries_incr, h]
  split_ifs with h1 h2
  · simp
  · have hmod : (s.retries + 1) % 256 = s.retries + 1 := Nat.mod_eq_of_lt (by omega)
    simp only [hmod]
    omega
  · exact h

/-- C19: with a ceiling of at most 254, in every state reached from a fresh `net_init` (one
run with `TCPIP_INITED` clear) by any finite sequence of events the retry counter is at most
ceiling + 1; hence wherever the handler increments it (counter not above the ceiling) the
8-bit increment gives the counter plus one, without wrapping. -/
theorem C19_retries_bounded (c : Nat) (hc : c ≤ 254) (s : State)
    (hfresh : s.tcpip_inited = false) (events : List system_event_id) :
    (deliver c (net_init s).state events).state.retries ≤ c + 1 ∧
    ((deliver c (net_init s).state events).state.retries ≤ c →
      (retries_incr (deliver c (net_init s).state events)).state.retries =
        (deliver c (net_init s).state events).state.retries + 1) := by
  have hbound : (deliver c (net_init s).state events).state.retries ≤ c + 1 := by
    induction events using List.reverseRecOn with
    | nil =>
      simp [deliver, net_init, status_get, status_set, status_write, retries_assign,
        xEventGroupCreate, tcpip_adapter_init, esp_event_loop_init, hfresh]
    | append_singleton es e ih =>
      rw [deliver_snoc]
      exact event_handler_retries_le c hc _ e ih
  refine ⟨hbound, ?_⟩
  intro hle
  simp only [retries_incr, retries_assign]
  exact Nat.mod_eq_of_lt (by omega)

/-- C19 at ceiling 1 after three station-disconnected events, a connection and one more
disconnection. -/
theorem C19_retries_bounded_witness :
    (deliver 1 (net_init ⟨false, false, false, 7, none, none⟩).state
        [system_event_id.SYSTEM_EVENT_STA_DISCONNECTED,
         system_event_id.SYSTEM_EVENT_STA_DISCONNECTED,
         system_event_id.SYSTEM_EVENT_STA_DISCONNECTED,
         system_event_id.SYSTEM_EVENT_STA_CONNECTED,
         system_event_id.SYSTEM_EVENT_STA_DISCONNECTED]).state.retries ≤ 1 + 1 :=
  (C19_retries_bounded 1 (by decide) ⟨false, false, false, 7, none, none⟩ rfl
    [system_event_id.SYSTEM_EVENT_STA_DISCONNECTED,
     system_event_id.SYSTEM_EVENT_STA_DISCONNECTED,
     system_event_id.SYSTEM_EVENT_STA_DISCONNECTED,
     system_event_id.SYSTEM_EVENT_STA_CONNECTED,
     system_event_id.SYSTEM_EVENT_STA_DISCONNECTED]).1

/-! ## Lookup without an IPv4 result -/

/-- When no node of `res` has family `AF_INET` the scan leaves `result` where it was. -/
theorem lookup_scan_of_no_inet (res result : List addrinfo)
    (h : ∀ x ∈ res, x.ai_family ≠ AF_INET) : lookup_scan res result = result := by
  induction res with
  | nil => rfl
  | cons x xs ih =>
    have hx : x.ai_family ≠ AF_INET := h x (List.mem_cons_self x xs)
    simp only [lookup_scan, hx, if_false]
    exact ih (fun y hy => h y (List.mem_cons_of_mem x hy))

/-- C20: when connectivity is available and the resolver succeeds with a non-empty list
that has no entry of family IPv4, `net_lookup` returns no error, frees the list, and leaves
the state and every field of the output address (family, port, IP) as passed in. -/
theorem C20_lookup_no_ipv4 (getaddrinfo : String → addrinfo_hints → Int × List addrinfo)
    (s : State) (name : String) (address : sockaddr_in) (res : List addrinfo)
    (hav : (net_check_connectivity s).ret = none)
    (hres : getaddrinfo name ⟨0, AF_INET, SOCK_STREAM, IPPROTO_TCP⟩ = (0, res))
    (hne : res ≠ [])
    (hno : ∀ x ∈ res, x.ai_family ≠ AF_INET) :
    net_lookup getaddrinfo s name address =
      some (⟨s, [Call.getaddrinfo name ⟨0, AF_INET, SOCK_STREAM, IPPROTO_TCP⟩,
                 Call.freeaddrinfo res],
             none⟩, address) := by
  have hs : (net_check_connectivity s).state = s := by
    unfold net_check_connectivity
    split <;> rfl
  have hcalls : (net_check_connectivity s).calls = [] := by
    unfold net_check_connectivity
    split <;> rfl
  have hscan := lookup_scan_of_no_inet res res hno
  cases res with
  | nil => exact absurd rfl hne
  | cons a next =>
    have ha : a.ai_family ≠ AF_INET := hno a (List.mem_cons_self a next)
    simp only [net_lookup, hav, hres, hscan, hs, hcalls]
    simp [ha]

/-- C20 on a list of two IPv6 entries. -/
theorem C20_lookup_no_ipv4_witness :
    net_lookup
        (fun _ _ => (0, [⟨AF_INET6, ⟨16, AF_INET6, 80, 1, 0⟩⟩,
                         ⟨AF_INET6, ⟨16, AF_INET6, 80, 2, 0⟩⟩]))
        ⟨true, false, true, 0, some EventBits.empty, some Callback.event_handler⟩
        "example.test" ⟨0, 0, 7, 9, 0⟩ =
      some (⟨⟨true, false, true, 0, some EventBits.empty, some Callback.event_handler⟩,
             [Call.getaddrinfo "example.test" ⟨0, AF_INET, SOCK_STREAM, IPPROTO_TCP⟩,
              Call.freeaddrinfo [⟨AF_INET6, ⟨16, AF_INET6, 80, 1, 0⟩⟩,
                                 ⟨AF_INET6, ⟨16, AF_INET6, 80, 2, 0⟩⟩]],
             none⟩, ⟨0, 0, 7, 9, 0⟩) :=
  C20_lookup_no_ipv4
    (fun _ _ => (0, [⟨AF_INET6, ⟨16, AF_INET6, 80, 1, 0⟩⟩,
                     ⟨AF_INET6, ⟨16, AF_INET6, 80, 2, 0⟩⟩]))
    ⟨true, false, true, 0, some EventBits.empty, some Callback.event_handler⟩
    "example.test" ⟨0, 0, 7, 9, 0⟩
    [⟨AF_INET6, ⟨16, AF_INET6, 80, 1, 0⟩⟩, ⟨AF_INET6, ⟨16, AF_INET6, 80, 2, 0⟩⟩]
    rfl rfl (by simp) (by decide)

end Net
